import Mathlib

/-!
Verification of the `DB`/`DBObject` persistence layer of GarminDB
(`src/HealthDB/DB.py`) against its natural-language specification.

The Python classes are shallowly embedded: a row is a function from column
names to optional values, a table is a list of rows, SQL aggregates are
functions on lists of integers returning `Option Int` (`none` models SQL
NULL), and exceptions are modelled with `Except`.
-/

set_option autoImplicit false

namespace GarminDB

/-- Scalar values stored in a column (numbers, strings; `Option Value`
models SQL NULL / Python `None`). -/
inductive Value where
  | int (n : Int)
  | str (s : String)
deriving DecidableEq, Repr

/-- A semantic mapping: the `values_dict` argument of the Python code,
a dictionary of field name to possibly-`None` value. -/
abbrev Mapping := List (String × Option Value)

/-- A persisted row: each column name carries an optional value
(`none` = SQL NULL; columns never set default to NULL). -/
def Row := String → Option Value

/-- Schema metadata of a `DBObject` subclass: the column names of
`__table__`, the resolved `match_cols` names, and `min_row_values`. -/
structure Entity where
  cols : List String
  matchCols : List String
  min_row_values : Nat
deriving DecidableEq, Repr

/-- Errors raised by the embedded operations. -/
inductive DBError where
  /-- `values_dict[match_col_name]` with a missing key. -/
  | keyError
  /-- `Query.one_or_none` found more than one row. -/
  | multipleResultsFound
  /-- `raise ValueError(...)` in `_create`. -/
  | valueError
  /-- `raise IOError("Failed to commit")` in `DB.commit`. -/
  | ioError
deriving DecidableEq, Repr

/-- `dict[key]` lookup on a mapping, first entry wins. -/
def lookupKey (c : String) : Mapping → Option (Option Value)
  | [] => none
  | (k, v) :: rest => if k = c then some v else lookupKey c rest

/-- All match columns have an entry in the mapping (otherwise the Python
`values_dict[match_col_name]` raises `KeyError`). -/
def keysPresent (e : Entity) (m : Mapping) : Bool :=
  e.matchCols.all fun c => (lookupKey c m).isSome

/-- The filter built by `_find_query`: every match column of the row equals
the value supplied in the mapping (`None` compiles to IS NULL, so equality
on `Option Value` is the faithful reading). -/
def rowMatches (e : Entity) (m : Mapping) (r : Row) : Bool :=
  e.matchCols.all fun c =>
    match lookupKey c m with
    | some w => decide (r c = w)
    | none => false

/-- `DBObject.set_col_value`: sets the attribute only when `name` is a real
column of the table. -/
def set_col_value (e : Entity) (r : Row) (name : String) (v : Option Value) : Row :=
  if name ∈ e.cols then (fun c => if c = name then v else r c) else r

/-- Result of `_from_dict`: the mutated instance together with the
`not_none_values` counter. -/
structure MapResult where
  row : Row
  not_none_values : Nat

/-- One iteration of the `_from_dict` loop over `values_dict.iteritems()`. -/
def from_dict_step (e : Entity) (ignore_none : Bool) (acc : MapResult)
    (kv : String × Option Value) : MapResult :=
  match kv.2 with
  | some v => ⟨set_col_value e acc.row kv.1 (some v), acc.not_none_values + 1⟩
  | none =>
      if ignore_none then acc
      else ⟨set_col_value e acc.row kv.1 none, acc.not_none_values⟩

/-- `DBObject._from_dict(values_dict, ignore_none)` applied to an instance
whose current column state is `r`; resets `not_none_values` to 0 and folds
over the mapping. -/
def _from_dict (e : Entity) (r : Row) (m : Mapping) (ignore_none : Bool) : MapResult :=
  m.foldl (from_dict_step e ignore_none) ⟨r, 0⟩

/-- The empty (freshly constructed) instance: every column NULL. -/
def emptyRow : Row := fun _ => none

/-- `DBObject.from_dict(values_dict)`: a fresh instance populated with
`ignore_none=False` (the classmethod passes no flag). -/
def from_dict (e : Entity) (m : Mapping) : MapResult :=
  _from_dict e emptyRow m false

/-- `DBObject._create`: builds the instance via `from_dict`; when fewer than
`min_row_values` not-None values were supplied, returns `None` under
`ignore_none` and raises `ValueError` otherwise; else the row is added to
the session (returned here for the caller to append on commit). -/
def _create (e : Entity) (m : Mapping) (ignore_none : Bool) :
    Except DBError (Option Row) :=
  if (from_dict e m).not_none_values < e.min_row_values then
    if ignore_none then .ok none else .error .valueError
  else .ok (some (from_dict e m).row)

/-- `DBObject.create`: note the Python body calls
`cls._create(db, session, values_dict)` WITHOUT forwarding its own
`ignore_none` parameter, so `_create` always runs with `ignore_none=False`.
The `ignore_none` argument is kept to mirror the signature. -/
def create (e : Entity) (s : List Row) (m : Mapping) (ignore_none : Bool) :
    Except DBError (List Row) :=
  match _create e m false with
  | .error er => .error er
  | .ok none => .ok s
  | .ok (some r) => .ok (s ++ [r])

/-- `DBObject._find_one`: `_find_query(...).one_or_none()` — `None` for no
match, the row for exactly one, `MultipleResultsFound` for several. -/
def _find_one (e : Entity) (s : List Row) (m : Mapping) :
    Except DBError (Option Row) :=
  if keysPresent e m then
    match s.filter (rowMatches e m) with
    | [] => .ok none
    | [r] => .ok (some r)
    | _ => .error .multipleResultsFound
  else .error .keyError

/-- `DBObject.find_one`: `_find_one` on the shared query session (the same
table state in this embedding). -/
def find_one (e : Entity) (s : List Row) (m : Mapping) :
    Except DBError (Option Row) :=
  _find_one e s m

/-- `DBObject.find_or_create`: create (and commit) only when `_find_one`
finds nothing. -/
def find_or_create (e : Entity) (s : List Row) (m : Mapping) :
    Except DBError (List Row) :=
  match _find_one e s m with
  | .error er => .error er
  | .ok (some _) => .ok s
  | .ok none =>
      match _create e m false with
      | .error er => .error er
      | .ok none => .ok s
      | .ok (some r) => .ok (s ++ [r])

/-- `DBObject.create_or_update`: update the found instance in place via
`_from_dict`, or `_create` (forwarding `ignore_none`, unlike `create`). -/
def create_or_update (e : Entity) (s : List Row) (m : Mapping)
    (ignore_none : Bool) : Except DBError (List Row) :=
  match _find_one e s m with
  | .error er => .error er
  | .ok none =>
      match _create e m ignore_none with
      | .error er => .error er
      | .ok none => .ok s
      | .ok (some r) => .ok (s ++ [r])
  | .ok (some inst) =>
      .ok (s.map fun r =>
        if rowMatches e m r then (_from_dict e inst m ignore_none).row else r)

/-- `DBObject.create_or_update_not_none`. -/
def create_or_update_not_none (e : Entity) (s : List Row) (m : Mapping) :
    Except DBError (List Row) :=
  create_or_update e s m true

/-! ## Lemmas about the record mapper -/

theorem set_col_value_ne (e : Entity) (r : Row) (name : String) (v : Option Value)
    (c : String) (h : c ≠ name) : set_col_value e r name v c = r c := by
  unfold set_col_value
  by_cases hmem : name ∈ e.cols
  · simp [hmem, h]
  · simp [hmem]

theorem set_col_value_not_col (e : Entity) (r : Row) (name : String) (v : Option Value)
    (h : name ∉ e.cols) : set_col_value e r name v = r := by
  unfold set_col_value
  simp [h]

theorem from_dict_step_row_ne (e : Entity) (i : Bool) (acc : MapResult)
    (k : String) (w : Option Value) (c : String) (h : c ≠ k) :
    (from_dict_step e i acc (k, w)).row c = acc.row c := by
  cases w <;> cases i <;>
    simp [from_dict_step, set_col_value_ne _ _ _ _ _ h]

/-- Keys absent from the mapping leave the corresponding column untouched. -/
theorem fold_row_not_mem (e : Entity) (i : Bool) (m : Mapping) :
    ∀ (acc : MapResult) (c : String), c ∉ m.map Prod.fst →
      (m.foldl (from_dict_step e i) acc).row c = acc.row c := by
  induction m with
  | nil => intro acc c _; rfl
  | cons kv rest ih =>
      intro acc c h
      rw [List.map_cons, List.mem_cons] at h
      push_neg at h
      rw [List.foldl_cons, ih _ c h.2]
      exact from_dict_step_row_ne e i acc kv.1 kv.2 c h.1

/-- The `not_none_values` counter counts every entry of the mapping with a
non-null value, regardless of whether the key names a real column. -/
theorem fold_count (e : Entity) (i : Bool) (m : Mapping) :
    ∀ acc : MapResult,
      (m.foldl (from_dict_step e i) acc).not_none_values =
        acc.not_none_values + (m.filter fun kv => kv.2.isSome).length := by
  induction m with
  | nil => intro acc; rfl
  | cons kv rest ih =>
      intro acc
      rw [List.foldl_cons, ih]
      rcases kv with ⟨k, w⟩
      cases w <;> cases i <;> simp [from_dict_step, List.filter_cons] <;> omega

theorem from_dict_count (e : Entity) (m : Mapping) :
    (from_dict e m).not_none_values = (m.filter fun kv => kv.2.isSome).length := by
  have h := fold_count e false m ⟨emptyRow, 0⟩
  simpa [from_dict, _from_dict] using h

/-- Under `ignore_none = true` a non-null column value is never overwritten
with null. -/
theorem fold_row_true_ne_none (e : Entity) (m : Mapping) :
    ∀ (acc : MapResult) (c : String), acc.row c ≠ none →
      (m.foldl (from_dict_step e true) acc).row c ≠ none := by
  induction m with
  | nil => intro acc c h; exact h
  | cons kv rest ih =>
      rcases kv with ⟨k, w⟩
      intro acc c h
      rw [List.foldl_cons]
      apply ih
      cases w with
      | none => simpa [from_dict_step] using h
      | some v =>
          show set_col_value e acc.row k (some v) c ≠ none
          unfold set_col_value
          by_cases hmem : k ∈ e.cols
          · simp only [hmem, if_true]
            by_cases hck : c = k <;> simp [hck, h]
          · simp only [hmem, if_false]
            exact h

/-- Characterisation of `_from_dict` with `ignore_none = true` on mappings
with distinct keys: a non-null entry for a real column wins, anything else
leaves the column as it was. -/
theorem fold_row_true_lookup (e : Entity) (m : Mapping) :
    ∀ (acc : MapResult) (c : String), (m.map Prod.fst).Nodup →
      (m.foldl (from_dict_step e true) acc).row c =
        match lookupKey c m with
        | some (some v) => if c ∈ e.cols then some v else acc.row c
        | _ => acc.row c := by
  induction m with
  | nil => intro acc c _; rfl
  | cons kv rest ih =>
      rcases kv with ⟨k, w⟩
      intro acc c hnd
      rw [List.map_cons, List.nodup_cons] at hnd
      by_cases hc : c = k
      · subst hc
        rw [List.foldl_cons, fold_row_not_mem e true rest _ c hnd.1]
        cases w with
        | none => simp [from_dict_step, lookupKey]
        | some v =>
            by_cases hmem : c ∈ e.cols <;>
              simp [from_dict_step, lookupKey, set_col_value, hmem]
      · have hacc : (from_dict_step e true acc (k, w)).row c = acc.row c :=
          from_dict_step_row_ne e true acc k w c hc
        have hl : lookupKey c ((k, w) :: rest) = lookupKey c rest := by
          simp [lookupKey, Ne.symm hc]
        rw [List.foldl_cons, ih _ c hnd.2, hacc, hl]

/-- Characterisation of `_from_dict` with `ignore_none = false` on mappings
with distinct keys: every entry for a real column (null or not) wins. -/
theorem fold_row_false_lookup (e : Entity) (m : Mapping) :
    ∀ (acc : MapResult) (c : String), (m.map Prod.fst).Nodup →
      (m.foldl (from_dict_step e false) acc).row c =
        match lookupKey c m with
        | some w => if c ∈ e.cols then w else acc.row c
        | none => acc.row c := by
  induction m with
  | nil => intro acc c _; rfl
  | cons kv rest ih =>
      rcases kv with ⟨k, w⟩
      intro acc c hnd
      rw [List.map_cons, List.nodup_cons] at hnd
      by_cases hc : c = k
      · subst hc
        rw [List.foldl_cons, fold_row_not_mem e false rest _ c hnd.1]
        cases w with
        | none =>
            by_cases hmem : c ∈ e.cols <;>
              simp [from_dict_step, lookupKey, set_col_value, hmem]
        | some v =>
            by_cases hmem : c ∈ e.cols <;>
              simp [from_dict_step, lookupKey, set_col_value, hmem]
      · have hacc : (from_dict_step e false acc (k, w)).row c = acc.row c :=
          from_dict_step_row_ne e false acc k w c hc
        have hl : lookupKey c ((k, w) :: rest) = lookupKey c rest := by
          simp [lookupKey, Ne.symm hc]
        rw [List.foldl_cons, ih _ c hnd.2, hacc, hl]

theorem lookupKey_eq_of_mem (c : String) (w : Option Value) (m : Mapping)
    (hnd : (m.map Prod.fst).Nodup) (hmem : (c, w) ∈ m) :
    lookupKey c m = some w := by
  induction m with
  | nil => cases hmem
  | cons kv rest ih =>
      rcases kv with ⟨k, w'⟩
      rw [List.map_cons, List.nodup_cons] at hnd
      rcases List.mem_cons.mp hmem with h | h
      · cases h
        simp [lookupKey]
      · have hkc : ¬ k = c := by
          intro hkc
          subst hkc
          exact hnd.1 (List.mem_map.mpr ⟨(k, w), h, rfl⟩)
        simp [lookupKey, hkc, ih hnd.2 h]

theorem all_congr_aux (l : List String) (f g : String → Bool)
    (h : ∀ c ∈ l, f c = g c) : l.all f = l.all g := by
  induction l with
  | nil => rfl
  | cons x xs ih =>
      rw [List.all_cons, List.all_cons, h x (by simp),
        ih fun c hc => h c (by simp [hc])]

/-- Two mappings agreeing on the match columns are interchangeable in the
match-key filter. -/
theorem rowMatches_congr (e : Entity) (m m' : Mapping) (r : Row)
    (hagree : ∀ c ∈ e.matchCols, lookupKey c m' = lookupKey c m) :
    rowMatches e m' r = rowMatches e m r :=
  all_congr_aux e.matchCols _ _ fun c hc => by rw [hagree c hc]

theorem keysPresent_congr (e : Entity) (m m' : Mapping)
    (hagree : ∀ c ∈ e.matchCols, lookupKey c m' = lookupKey c m) :
    keysPresent e m' = keysPresent e m :=
  all_congr_aux e.matchCols _ _ fun c hc => by rw [hagree c hc]

/-- A freshly created instance satisfies the match-key filter of the
mapping it was built from, provided the match columns are supplied and are
real columns. -/
theorem from_dict_row_matches (e : Entity) (m : Mapping)
    (hkeys : keysPresent e m = true) (hnd : (m.map Prod.fst).Nodup)
    (hmc : ∀ c ∈ e.matchCols, c ∈ e.cols) :
    rowMatches e m (from_dict e m).row = true := by
  unfold rowMatches
  rw [List.all_eq_true]
  intro c hc
  have hks := List.all_eq_true.mp hkeys c hc
  rcases hw : lookupKey c m with _ | w
  · rw [hw] at hks
    simp at hks
  · have h1 := fold_row_false_lookup e m ⟨emptyRow, 0⟩ c hnd
    rw [hw] at h1
    simp only [hmc c hc, if_true] at h1
    simp only [hw]
    simp [from_dict, _from_dict, h1]

/-! ## The commit retry loop (`DB.commit`) -/

/-- `DB.max_commit_attempts`. -/
def max_commit_attempts : Nat := 5

/-- Observable trace of one `DB.commit` call: how many times
`session.commit()` was invoked, how many rollbacks, the increments of the
shared `commit_errors` counter, the argument of each `time.sleep`, and
whether `session.close()` ran. -/
structure CommitTrace where
  commit_calls : Nat
  rollbacks : Nat
  commit_errors : Nat
  sleeps : List Nat
  closed : Bool
deriving DecidableEq, Repr

/-- Trace at entry of `DB.commit`. -/
def initTrace : CommitTrace := ⟨0, 0, 0, [], false⟩

/-- The `while attempts < DB.max_commit_attempts` loop of `DB.commit`.
`outcome n` tells whether the n-th `session.commit()` call succeeds
(`false` = raises `OperationalError`). On failure the loop increments
`attempts`, rolls back, bumps `commit_errors`, sleeps `attempts` seconds
and retries; leaving the loop raises `IOError`. -/
def commitLoop (outcome : Nat → Bool) (attempts : Nat) (t : CommitTrace) :
    CommitTrace × Except DBError Unit :=
  if h : attempts < max_commit_attempts then
    let t' := { t with commit_calls := t.commit_calls + 1 }
    if outcome (attempts + 1) then
      ({ t' with closed := true }, .ok ())
    else
      commitLoop outcome (attempts + 1)
        { t' with rollbacks := t'.rollbacks + 1,
                  commit_errors := t'.commit_errors + 1,
                  sleeps := t'.sleeps ++ [attempts + 1] }
  else (t, .error .ioError)
termination_by max_commit_attempts - attempts
decreasing_by omega

/-- `DB.commit(session)`, starting from `attempts = 0`. -/
def DB_commit (outcome : Nat → Bool) : CommitTrace × Except DBError Unit :=
  commitLoop outcome 0 initTrace

/-! ## Generic lemmas about the commit loop -/

theorem commitLoop_stop (outcome : Nat → Bool) (attempts : Nat) (t : CommitTrace)
    (h : ¬ attempts < max_commit_attempts) :
    commitLoop outcome attempts t = (t, .error .ioError) := by
  rw [commitLoop]
  simp [h]

theorem commitLoop_succ (outcome : Nat → Bool) (attempts : Nat) (t : CommitTrace)
    (h : attempts < max_commit_attempts) (ho : outcome (attempts + 1) = true) :
    commitLoop outcome attempts t =
      ({ t with commit_calls := t.commit_calls + 1, closed := true }, .ok ()) := by
  rw [commitLoop]
  simp [h, ho]

theorem commitLoop_fail (outcome : Nat → Bool) (attempts : Nat) (t : CommitTrace)
    (h : attempts < max_commit_attempts) (ho : outcome (attempts + 1) = false) :
    commitLoop outcome attempts t =
      commitLoop outcome (attempts + 1)
        { t with commit_calls := t.commit_calls + 1, rollbacks := t.rollbacks + 1,
                 commit_errors := t.commit_errors + 1, sleeps := t.sleeps ++ [attempts + 1] } := by
  conv_lhs => rw [commitLoop]
  simp [h, ho]

/-- Claim C1: a commit whose every attempt raises a transient
`OperationalError` is attempted exactly 5 times, with a rollback, a shared
error-counter increment and a sleep of 1,2,3,4,5 seconds after the
successive failures, and then raises `IOError`; a commit that succeeds on
attempt `k ≤ 5` returns normally after `k - 1` retries (sleeping
1,...,k-1 seconds) and closes the session. -/
theorem claim_C1 (outcome : Nat → Bool) (k : Nat) :
    ((∀ i, 1 ≤ i → i ≤ 5 → outcome i = false) →
      DB_commit outcome = (⟨5, 5, 5, [1, 2, 3, 4, 5], false⟩, .error .ioError)) ∧
    (1 ≤ k → k ≤ 5 → outcome k = true →
      (∀ i, 1 ≤ i → i < k → outcome i = false) →
      DB_commit outcome =
        (⟨k, k - 1, k - 1, (List.range (k - 1)).map (· + 1), true⟩, .ok ())) := by
  constructor
  · intro hfail
    have h1 := hfail 1 (by omega) (by omega)
    have h2 := hfail 2 (by omega) (by omega)
    have h3 := hfail 3 (by omega) (by omega)
    have h4 := hfail 4 (by omega) (by omega)
    have h5 := hfail 5 (by omega) (by omega)
    unfold DB_commit
    rw [commitLoop_fail _ _ _ (by decide) h1, commitLoop_fail _ _ _ (by decide) h2,
        commitLoop_fail _ _ _ (by decide) h3, commitLoop_fail _ _ _ (by decide) h4,
        commitLoop_fail _ _ _ (by decide) h5, commitLoop_stop _ _ _ (by decide)]
    rfl
  · intro hk1 hk5 hsucc hbefore
    unfold DB_commit
    interval_cases k
    · rw [commitLoop_succ _ _ _ (by decide) hsucc]
      rfl
    · rw [commitLoop_fail _ _ _ (by decide) (hbefore 1 (by omega) (by omega)),
          commitLoop_succ _ _ _ (by decide) hsucc]
      rfl
    · rw [commitLoop_fail _ _ _ (by decide) (hbefore 1 (by omega) (by omega)),
          commitLoop_fail _ _ _ (by decide) (hbefore 2 (by omega) (by omega)),
          commitLoop_succ _ _ _ (by decide) hsucc]
      rfl
    · rw [commitLoop_fail _ _ _ (by decide) (hbefore 1 (by omega) (by omega)),
          commitLoop_fail _ _ _ (by decide) (hbefore 2 (by omega) (by omega)),
          commitLoop_fail _ _ _ (by decide) (hbefore 3 (by omega) (by omega)),
          commitLoop_succ _ _ _ (by decide) hsucc]
      rfl
    · rw [commitLoop_fail _ _ _ (by decide) (hbefore 1 (by omega) (by omega)),
          commitLoop_fail _ _ _ (by decide) (hbefore 2 (by omega) (by omega)),
          commitLoop_fail _ _ _ (by decide) (hbefore 3 (by omega) (by omega)),
          commitLoop_fail _ _ _ (by decide) (hbefore 4 (by omega) (by omega)),
          commitLoop_succ _ _ _ (by decide) hsucc]
      rfl

/-- Witness for C1: an always-failing backend gives 5 attempts then
`IOError`; a backend succeeding from attempt 3 on gives a normal return
after exactly 2 retries. -/
theorem claim_C1_witness :
    DB_commit (fun _ => false) = (⟨5, 5, 5, [1, 2, 3, 4, 5], false⟩, .error .ioError) ∧
    DB_commit (fun i => decide (3 ≤ i)) = (⟨3, 2, 2, [1, 2], true⟩, .ok ()) := by
  constructor
  · exact (claim_C1 (fun _ => false) 1).1 (fun i _ _ => rfl)
  · exact (claim_C1 (fun i => decide (3 ≤ i)) 3).2 (by decide) (by decide) (by decide)
      (fun i h1 h2 => by interval_cases i <;> rfl)

/-! ## Claims about the record mapper and the upsert engine -/

/-- A DailySummary-like entity (spec section 8): columns `day`, `steps`,
`rhr`; match key `day`; `min_row_values` at its default of 1. -/
def dailyEnt : Entity := ⟨["day", "steps", "rhr"], ["day"], 1⟩

/-- Claim C3 (code bug): an under-minimum mapping makes `create` raise
`ValueError` with `ignore_none=false` (first conjunct, as claimed) and is
silently dropped by `create_or_update` with `ignore_none=true` (third
conjunct, as claimed); but `create` with `ignore_none=true` STILL raises,
because the Python body calls `cls._create(db, session, values_dict)`
without forwarding its `ignore_none` parameter (second conjunct refutes the
claimed tolerated null-result path). -/
theorem claim_C3 :
    create dailyEnt [] [("day", (none : Option Value))] false = .error .valueError ∧
    create dailyEnt [] [("day", (none : Option Value))] true = .error .valueError ∧
    create_or_update dailyEnt [] [("day", (none : Option Value))] true = .ok [] :=
  ⟨rfl, rfl, rfl⟩

/-- Claim C4: applying a mapping with `ignore_none=true` never replaces a
non-null field with null, leaves fields absent from the mapping untouched,
and overwrites real columns supplied with non-null values; and the
end-to-end scenario — upsert of `{day, steps=5000}` followed by
`{day, steps=null, rhr=55}` — leaves `steps=5000` and sets `rhr=55`. -/
theorem claim_C4 (e : Entity) (r : Row) (m : Mapping) (c : String) (v : Value) :
    (r c ≠ none → (_from_dict e r m true).row c ≠ none) ∧
    (c ∉ m.map Prod.fst → (_from_dict e r m true).row c = r c) ∧
    ((m.map Prod.fst).Nodup → (c, some v) ∈ m → c ∈ e.cols →
      (_from_dict e r m true).row c = some v) ∧
    (∃ r1 r2,
      create_or_update_not_none dailyEnt []
        [("day", some (Value.int 20240101)), ("steps", some (Value.int 5000))] = .ok [r1] ∧
      create_or_update_not_none dailyEnt [r1]
        [("day", some (Value.int 20240101)), ("steps", (none : Option Value)),
         ("rhr", some (Value.int 55))] = .ok [r2] ∧
      r2 "day" = some (Value.int 20240101) ∧ r2 "steps" = some (Value.int 5000) ∧
      r2 "rhr" = some (Value.int 55)) := by
  refine ⟨fun h => fold_row_true_ne_none e m ⟨r, 0⟩ c h,
    fun h => fold_row_not_mem e true m ⟨r, 0⟩ c h, ?_, ?_⟩
  · intro hnd hmem hcols
    have h1 := fold_row_true_lookup e m ⟨r, 0⟩ c hnd
    rw [lookupKey_eq_of_mem c (some v) m hnd hmem] at h1
    simpa [_from_dict, hcols] using h1
  · exact ⟨_, _, rfl, rfl, rfl, rfl, rfl⟩

/-- A concrete row and mapping for the C4 witness. -/
def w4Row : Row := fun c => if c = "steps" then some (Value.int 1) else none

/-- Mapping for the C4 witness: sets `rhr`, nulls `steps`. -/
def w4Map : Mapping := [("rhr", some (Value.int 55)), ("steps", (none : Option Value))]

/-- Witness for C4 at concrete inputs. -/
theorem claim_C4_witness :
    ((_from_dict dailyEnt w4Row w4Map true).row "steps" ≠ none) ∧
    ((_from_dict dailyEnt w4Row w4Map true).row "day" = w4Row "day") ∧
    ((_from_dict dailyEnt w4Row w4Map true).row "rhr" = some (Value.int 55)) :=
  ⟨(claim_C4 dailyEnt w4Row w4Map "steps" (Value.int 0)).1 (by decide),
   (claim_C4 dailyEnt w4Row w4Map "day" (Value.int 0)).2.1 (by decide),
   (claim_C4 dailyEnt w4Row w4Map "rhr" (Value.int 55)).2.2.1 (by decide) (by decide) (by decide)⟩

/-- Counterexample to claim C5 as stated: with entity columns
`day, steps, rhr` and the mapping `{"bogus": 1}`, the mapper's
`not_none_values` is 1 although zero keys name a real column with a
non-null value — unknown keys do contribute to the count. -/
theorem claim_C5_counterexample :
    (_from_dict dailyEnt emptyRow [("bogus", some (Value.int 1))] false).not_none_values ≠
      ([("bogus", some (Value.int 1))].filter
        (fun kv : String × Option Value =>
          decide (kv.1 ∈ dailyEnt.cols) && kv.2.isSome)).length := by
  decide

/-- Claim C5 (amended): `not_none_values` equals the number of mapping keys
carrying a non-null value, whether or not they name real columns; unknown
keys are still silently ignored when setting column values (no error, the
row is unchanged by them), but they do contribute to the count. -/
theorem claim_C5 (e : Entity) (r : Row) (m : Mapping) (i : Bool) :
    ((_from_dict e r m i).not_none_values =
      (m.filter fun kv => kv.2.isSome).length) ∧
    (∀ (acc : MapResult) (kv : String × Option Value), kv.1 ∉ e.cols →
      (from_dict_step e i acc kv).row = acc.row) := by
  constructor
  · have h := fold_count e i m ⟨r, 0⟩
    simpa [_from_dict] using h
  · intro acc kv hk
    rcases kv with ⟨k, w⟩
    cases w <;> cases i <;>
      simp [from_dict_step, set_col_value_not_col _ _ _ _ hk]

/-- Witness for C5 at concrete inputs. -/
theorem claim_C5_witness :
    ((_from_dict dailyEnt emptyRow [("bogus", some (Value.int 1))] false).not_none_values =
      ([("bogus", some (Value.int 1))].filter
        (fun kv : String × Option Value => kv.2.isSome)).length) ∧
    (from_dict_step dailyEnt false ⟨emptyRow, 0⟩ ("bogus", some (Value.int 1))).row = emptyRow :=
  ⟨(claim_C5 dailyEnt emptyRow [("bogus", some (Value.int 1))] false).1,
   (claim_C5 dailyEnt emptyRow [] false).2 ⟨emptyRow, 0⟩ ("bogus", some (Value.int 1)) (by decide)⟩

/-- Claim C6: `find_or_create` is idempotent. With the match columns
supplied and real, the mapping meeting the minimum and at most one
pre-existing match, calling it twice yields one matching row, the second
call is a no-op, and a further call with a mapping sharing the same
match-key values (but possibly different non-key fields) creates no second
row. -/
theorem claim_C6 (e : Entity) (s : List Row) (m m' : Mapping)
    (hkeys : keysPresent e m = true)
    (hnd : (m.map Prod.fst).Nodup)
    (hmc : ∀ c ∈ e.matchCols, c ∈ e.cols)
    (hmin : e.min_row_values ≤ (m.filter fun kv => kv.2.isSome).length)
    (hcount : (s.filter (rowMatches e m)).length ≤ 1)
    (hagree : ∀ c ∈ e.matchCols, lookupKey c m' = lookupKey c m) :
    ∃ s', find_or_create e s m = .ok s' ∧
      find_or_create e s' m = .ok s' ∧
      find_or_create e s' m' = .ok s' ∧
      (s'.filter (rowMatches e m)).length = 1 ∧
      ((s.filter (rowMatches e m)).length = 0 → s'.length = s.length + 1) ∧
      ((s.filter (rowMatches e m)).length = 1 → s' = s) := by
  have hpred : rowMatches e m' = rowMatches e m :=
    funext fun r => rowMatches_congr e m m' r hagree
  have hkeys' : keysPresent e m' = true := by
    rw [keysPresent_congr e m m' hagree]
    exact hkeys
  have hcreate : _create e m false = .ok (some (from_dict e m).row) := by
    unfold _create
    rw [from_dict_count]
    rw [if_neg (by omega)]
  have hnewm : rowMatches e m (from_dict e m).row = true :=
    from_dict_row_matches e m hkeys hnd hmc
  rcases hf : s.filter (rowMatches e m) with _ | ⟨r0, rest⟩
  · have hfilter1 : (s ++ [(from_dict e m).row]).filter (rowMatches e m) =
        [(from_dict e m).row] := by
      rw [List.filter_append, hf]
      simp [hnewm]
    refine ⟨s ++ [(from_dict e m).row], ?_, ?_, ?_, ?_, ?_, ?_⟩
    · unfold find_or_create _find_one
      simp [hkeys, hf, hcreate]
    · unfold find_or_create _find_one
      simp [hkeys, hfilter1]
    · unfold find_or_create _find_one
      simp [hkeys', hpred, hfilter1]
    · rw [hfilter1]
      rfl
    · intro _
      simp
    · intro h1
      simp at h1
  · have hrest : rest = [] := by
      rw [hf] at hcount
      simp only [List.length_cons] at hcount
      exact List.eq_nil_of_length_eq_zero (by omega)
    subst hrest
    have hone : find_or_create e s m = .ok s := by
      unfold find_or_create _find_one
      simp [hkeys, hf]
    refine ⟨s, hone, hone, ?_, ?_, ?_, fun _ => rfl⟩
    · unfold find_or_create _find_one
      simp [hkeys', hpred, hf]
    · rw [hf]
      rfl
    · intro h0
      simp at h0

/-- Mapping for the C6 witness. -/
def w6Map : Mapping := [("day", some (Value.int 1)), ("steps", some (Value.int 5))]

/-- A second C6-witness mapping with the same match-key value but a
different non-key field. -/
def w6Map' : Mapping := [("day", some (Value.int 1)), ("steps", some (Value.int 7))]

/-- Witness for C6 starting from the empty table. -/
theorem claim_C6_witness :
    ∃ s', find_or_create dailyEnt [] w6Map = .ok s' ∧
      find_or_create dailyEnt s' w6Map = .ok s' ∧
      find_or_create dailyEnt s' w6Map' = .ok s' ∧
      (s'.filter (rowMatches dailyEnt w6Map)).length = 1 ∧
      ((([] : List Row).filter (rowMatches dailyEnt w6Map)).length = 0 →
        s'.length = ([] : List Row).length + 1) ∧
      ((([] : List Row).filter (rowMatches dailyEnt w6Map)).length = 1 →
        s' = ([] : List Row)) :=
  claim_C6 dailyEnt [] w6Map w6Map' (by decide) (by decide) (by decide) (by decide)
    (by decide) (by decide)

/-- Claim C7: with all match columns supplied, `find_one` raises when two
or more rows share the supplied match-key values (never silently picking
one), and otherwise returns the single matching row or an explicit absent
result, without raising. -/
theorem claim_C7 (e : Entity) (s : List Row) (m : Mapping)
    (hkeys : keysPresent e m = true) :
    (2 ≤ (s.filter (rowMatches e m)).length →
      find_one e s m = .error .multipleResultsFound) ∧
    ((s.filter (rowMatches e m)).length ≤ 1 →
      find_one e s m = .ok (s.filter (rowMatches e m)).head?) := by
  constructor
  · intro hlen
    unfold find_one _find_one
    rcases hf : s.filter (rowMatches e m) with _ | ⟨r0, _ | ⟨r1, rest⟩⟩
    · rw [hf] at hlen
      simp at hlen
    · rw [hf] at hlen
      simp at hlen
    · simp [hkeys]
  · intro hlen
    unfold find_one _find_one
    rcases hf : s.filter (rowMatches e m) with _ | ⟨r0, _ | ⟨r1, rest⟩⟩
    · simp [hkeys]
    · simp [hkeys]
    · rw [hf] at hlen
      simp only [List.length_cons] at hlen
      omega

/-- Two rows sharing the same `day` match-key value. -/
def w7Rows : List Row :=
  [fun c => if c = "day" then some (Value.int 1) else none,
   fun c => if c = "day" then some (Value.int 1) else some (Value.int 2)]

/-- Mapping for the C7 witness. -/
def w7Map : Mapping := [("day", some (Value.int 1))]

/-- Witness for C7: duplicate match keys raise; an empty table gives an
explicit absent result. -/
theorem claim_C7_witness :
    find_one dailyEnt w7Rows w7Map = .error .multipleResultsFound ∧
    find_one dailyEnt [] w7Map = .ok none :=
  ⟨(claim_C7 dailyEnt w7Rows w7Map (by decide)).1 (by decide),
   (claim_C7 dailyEnt [] w7Map (by decide)).2 (by decide)⟩

/-! ## Aggregate query builder -/

/-- SQL SUM of the selected column; `none` models the NULL returned when no
rows qualify. -/
def sqlSum : List Int → Option Int
  | [] => none
  | x :: xs => some (x + xs.sum)

/-- SQL AVG (integer division stands in for the backend's division). -/
def sqlAvg : List Int → Option Int
  | [] => none
  | x :: xs => some ((x + xs.sum) / (1 + (xs.length : Int)))

/-- SQL MAX. -/
def sqlMaxList : List Int → Option Int
  | [] => none
  | x :: xs => some (xs.foldl max x)

/-- SQL MIN. -/
def sqlMinList : List Int → Option Int
  | [] => none
  | x :: xs => some (xs.foldl min x)

/-- A row of a monitoring-style table as seen by the max-per-day queries:
the `timestamp` column (the table's time column) and the selected column's
value. -/
structure TSRow where
  timestamp : Nat
  value : Int
deriving DecidableEq, Repr

/-- Rows passing the half-open `[start_ts, end_ts)` timestamp filter of the
max-per-day queries. -/
def restrictRange (rows : List TSRow) (start_ts end_ts : Nat) : List TSRow :=
  rows.filter fun r => decide (start_ts ≤ r.timestamp) && decide (r.timestamp < end_ts)

/-- The per-day maxima: for each distinct day-of-year among the rows, the
SQL MAX of the column over that day's rows (`dayOf` abstracts
`strftime "%j"`). -/
def perDayMaxima (dayOf : Nat → Nat) (rows : List TSRow) : List Int :=
  ((rows.map fun r => dayOf r.timestamp).dedup).filterMap fun d =>
    sqlMaxList ((rows.filter fun r => decide (dayOf r.timestamp = d)).map (·.value))

/-- `DBObject.get_col_func_of_max_per_day`: the inner query filters
`timestamp` to `[start_ts, end_ts)`, groups by day-of-year and takes
`MAX(col)` per group; the outer query applies `stat_func` over the
resulting `maxes` column. -/
def get_col_func_of_max_per_day (dayOf : Nat → Nat)
    (stat_func : List Int → Option Int) (rows : List TSRow)
    (start_ts end_ts : Nat) : Option Int :=
  let filtered := rows.filter fun r =>
    decide (start_ts ≤ r.timestamp) && decide (r.timestamp < end_ts)
  let days := (filtered.map fun r => dayOf r.timestamp).dedup
  stat_func (days.filterMap fun d =>
    sqlMaxList ((filtered.filter fun r => decide (dayOf r.timestamp = d)).map (·.value)))

/-- A row with the match column, for the `_for_value` max-per-day variant. -/
structure MTSRow where
  timestamp : Nat
  matchv : Option Value
  value : Int
deriving DecidableEq, Repr

/-- `DBObject.get_col_func_of_max_per_day_for_value`: as above with the
extra `match_col == match_value` filter on the inner query. -/
def get_col_func_of_max_per_day_for_value (dayOf : Nat → Nat)
    (stat_func : List Int → Option Int) (rows : List MTSRow)
    (match_value : Option Value) (start_ts end_ts : Nat) : Option Int :=
  let filtered := rows.filter fun r =>
    decide (r.matchv = match_value) && decide (start_ts ≤ r.timestamp) &&
      decide (r.timestamp < end_ts)
  let days := (filtered.map fun r => dayOf r.timestamp).dedup
  stat_func (days.filterMap fun d =>
    sqlMaxList ((filtered.filter fun r => decide (dayOf r.timestamp = d)).map (·.value)))

/-- Heart-rate-style samples: values 60,70,80 on day 1 (timestamps
11,12,13) and 50,90 on day 2 (timestamps 21,22), with `timestamp / 10`
as the day-of-year. -/
def exRows : List TSRow := [⟨11, 60⟩, ⟨12, 70⟩, ⟨13, 80⟩, ⟨21, 50⟩, ⟨22, 90⟩]

/-- The same samples for the `_for_value` variant, restricted to
match value 1, with an extra row for match value 2 that must be ignored. -/
def exMRows : List MTSRow :=
  [⟨11, some (Value.int 1), 60⟩, ⟨12, some (Value.int 1), 70⟩,
   ⟨12, some (Value.int 2), 999⟩, ⟨13, some (Value.int 1), 80⟩,
   ⟨21, some (Value.int 1), 50⟩, ⟨22, some (Value.int 1), 90⟩]

/-- Counterexample to claim C2 as stated: on the claim's own example the
sum of all samples is 350, not the 470 the claim asserts (the two-level
result 170 differs from it all the same). -/
theorem claim_C2_counterexample :
    sqlSum ((restrictRange exRows 10 30).map (·.value)) = some 350 ∧
    sqlSum ((restrictRange exRows 10 30).map (·.value)) ≠ some 470 := by
  decide

/-- Claim C2 (amended: the sum of all samples in the example is 350, not
470): `get_col_func_of_max_per_day` equals `stat_func` applied to the
per-day maxima of the column over the rows in the half-open range, and on
the example samples the sum variant returns 80+90=170, which is neither
the sum of all samples (350) nor the maximum of all samples (90); the
`_for_value` variant behaves the same restricted to its match value. -/
theorem claim_C2 :
    (∀ (dayOf : Nat → Nat) (stat_func : List Int → Option Int)
      (rows : List TSRow) (a b : Nat),
      get_col_func_of_max_per_day dayOf stat_func rows a b =
        stat_func (perDayMaxima dayOf (restrictRange rows a b))) ∧
    get_col_func_of_max_per_day (· / 10) sqlSum exRows 10 30 = some 170 ∧
    perDayMaxima (· / 10) (restrictRange exRows 10 30) = [80, 90] ∧
    sqlSum ((restrictRange exRows 10 30).map (·.value)) = some 350 ∧
    sqlMaxList ((restrictRange exRows 10 30).map (·.value)) = some 90 ∧
    get_col_func_of_max_per_day_for_value (· / 10) sqlSum exMRows
      (some (Value.int 1)) 10 30 = some 170 := by
  refine ⟨fun dayOf stat_func rows a b => rfl, by decide, by decide, by decide,
    by decide, by decide⟩

/-- Optional-bound filter of `get_col_func`: each bound is applied only
when it is present. -/
def rangeFilter (rows : List TSRow) (start_ts end_ts : Option Nat)
    (ignore_le_zero : Bool) : List TSRow :=
  let q :=
    match start_ts with
    | some a => rows.filter fun r => decide (a ≤ r.timestamp)
    | none => rows
  let q' :=
    match end_ts with
    | some b => q.filter fun r => decide (r.timestamp < b)
    | none => q
  if ignore_le_zero then q'.filter fun r => decide (0 < r.value) else q'

/-- `DBObject.get_col_func`. -/
def get_col_func (stat_func : List Int → Option Int) (rows : List TSRow)
    (start_ts end_ts : Option Nat) (ignore_le_zero : Bool) : Option Int :=
  stat_func ((rangeFilter rows start_ts end_ts ignore_le_zero).map (·.value))

/-- Claim C8: range-filtered scalar aggregates are half-open — a row whose
time column equals `start_ts` is included, a row whose time column equals
`end_ts` is excluded; with rows at days 2024-01-01 and 2024-01-02 the range
`[2024-01-01, 2024-01-02)` aggregates only the first row. -/
theorem claim_C8 (rows : List TSRow) (a b : Nat) (h : a < b) :
    (∀ r ∈ rows, r.timestamp = a → r ∈ rangeFilter rows (some a) (some b) false) ∧
    (∀ r : TSRow, r.timestamp = b → r ∉ rangeFilter rows (some a) (some b) false) ∧
    get_col_func sqlSum [⟨20240101, 100⟩, ⟨20240102, 200⟩]
      (some 20240101) (some 20240102) false = some 100 := by
  refine ⟨?_, ?_, by decide⟩
  · intro r hr ht
    unfold rangeFilter
    simp [List.mem_filter, hr, ht, h]
  · intro r ht
    unfold rangeFilter
    simp [List.mem_filter, ht]

/-- Rows for the C8 witness. -/
def w8Rows : List TSRow := [⟨0, 5⟩, ⟨1, 6⟩]

/-- Witness for C8 on the range `[0, 1)`. -/
theorem claim_C8_witness :
    (∀ r ∈ w8Rows, r.timestamp = 0 → r ∈ rangeFilter w8Rows (some 0) (some 1) false) ∧
    (∀ r : TSRow, r.timestamp = 1 → r ∉ rangeFilter w8Rows (some 0) (some 1) false) ∧
    get_col_func sqlSum [⟨20240101, 100⟩, ⟨20240102, 200⟩]
      (some 20240101) (some 20240102) false = some 100 :=
  claim_C8 w8Rows 0 1 (by decide)

/-- A row as seen by the `*_for_value` scalar aggregates: time column,
match column, aggregated column. -/
structure MRow where
  time : Nat
  matchv : Int
  value : Int
deriving DecidableEq, Repr

/-- SQL `time_col >= bound` against a possibly-absent bound: comparison
with NULL is never satisfied. -/
def sqlGeBound (t : Nat) (b : Option Nat) : Bool :=
  match b with
  | some x => decide (x ≤ t)
  | none => false

/-- SQL `time_col < bound` against a possibly-absent bound. -/
def sqlLtBound (t : Nat) (b : Option Nat) : Bool :=
  match b with
  | some x => decide (t < x)
  | none => false

/-- `DBObject.get_col_func_for_value`: when at least one of the bounds is
supplied, BOTH time filters are added to the query (an absent bound becomes
a NULL comparison). -/
def get_col_func_for_value (stat_func : List Int → Option Int)
    (rows : List MRow) (match_value : Int) (start_ts end_ts : Option Nat)
    (ignore_le_zero : Bool) : Option Int :=
  let q := rows.filter fun r => decide (r.matchv = match_value)
  let q' := if start_ts.isSome || end_ts.isSome then
      q.filter fun r => sqlGeBound r.time start_ts && sqlLtBound r.time end_ts
    else q
  let q2 := if ignore_le_zero then q'.filter fun r => decide (0 < r.value) else q'
  stat_func (q2.map (·.value))

/-- `DBObject.get_col_func_greater_than_value`: same shape, strict `>` on
the match column. -/
def get_col_func_greater_than_value (stat_func : List Int → Option Int)
    (rows : List MRow) (match_value : Int) (start_ts end_ts : Option Nat)
    (ignore_le_zero : Bool) : Option Int :=
  let q := rows.filter fun r => decide (match_value < r.matchv)
  let q' := if start_ts.isSome || end_ts.isSome then
      q.filter fun r => sqlGeBound r.time start_ts && sqlLtBound r.time end_ts
    else q
  let q2 := if ignore_le_zero then q'.filter fun r => decide (0 < r.value) else q'
  stat_func (q2.map (·.value))

/-- `DBObject.get_col_func_less_than_value`: same shape, strict `<` on the
match column. -/
def get_col_func_less_than_value (stat_func : List Int → Option Int)
    (rows : List MRow) (match_value : Int) (start_ts end_ts : Option Nat)
    (ignore_le_zero : Bool) : Option Int :=
  let q := rows.filter fun r => decide (r.matchv < match_value)
  let q' := if start_ts.isSome || end_ts.isSome then
      q.filter fun r => sqlGeBound r.time start_ts && sqlLtBound r.time end_ts
    else q
  let q2 := if ignore_le_zero then q'.filter fun r => decide (0 < r.value) else q'
  stat_func (q2.map (·.value))

theorem filter_always_false {α : Type} (l : List α) :
    l.filter (fun _ => false) = [] := by
  induction l with
  | nil => rfl
  | cons x xs ih => simp [List.filter_cons, ih]

/-- Claim C9: in the `_for_value` aggregate family, supplying only
`start_ts` still adds the `time_col < end_ts` filter with an absent bound,
so no row qualifies and the aggregate returns the no-data NULL result —
unlike `get_col_func`, which applies each bound independently only when
present. -/
theorem claim_C9 (stat_func : List Int → Option Int) (rows : List MRow)
    (mv : Int) (a : Nat) (iz : Bool) :
    get_col_func_for_value stat_func rows mv (some a) none iz = stat_func [] ∧
    get_col_func_greater_than_value stat_func rows mv (some a) none iz = stat_func [] ∧
    get_col_func_less_than_value stat_func rows mv (some a) none iz = stat_func [] ∧
    (sqlSum [] = none ∧ sqlAvg [] = none ∧ sqlMaxList [] = none ∧ sqlMinList [] = none) ∧
    get_col_func sqlSum [⟨7, 42⟩] (some 0) none false = some 42 := by
  refine ⟨?_, ?_, ?_, ⟨rfl, rfl, rfl, rfl⟩, by decide⟩
  · unfold get_col_func_for_value
    simp [sqlLtBound, filter_always_false]
  · unfold get_col_func_greater_than_value
    simp [sqlLtBound, filter_always_false]
  · unfold get_col_func_less_than_value
    simp [sqlLtBound, filter_always_false]

/-- Truthiness of the Python `col_value` argument of `row_count`: `None`,
`0` and the empty string are falsy. -/
def truthyValue : Option Value → Bool
  | none => false
  | some (.int n) => decide (¬ n = 0)
  | some (.str s) => decide (¬ s = "")

/-- `DBObject.row_count`: the `if col and col_value:` guard applies the
match filter only when a column is supplied and the value is truthy. -/
def row_count (s : List Row) (col : Option String) (col_value : Option Value) : Nat :=
  match col with
  | none => s.length
  | some c =>
      if truthyValue col_value then
        (s.filter fun r => decide (r c = col_value)).length
      else s.length

/-- Rows for the C10 example: one row with column `c` equal to 0, one with
it NULL. -/
def w10Rows : List Row :=
  [fun x => if x = "c" then some (Value.int 0) else none, fun _ => none]

/-- Claim C10: a falsy `col_value` (0, empty string, or absent column)
makes `row_count` skip the match filter and return the total row count —
on the example table, 2 instead of the 1 row whose column equals 0; the
filter applies only when column and value are both truthy. -/
theorem claim_C10 (s : List Row) (c : String) (v : Option Value) :
    row_count s (some c) (some (Value.int 0)) = s.length ∧
    row_count s (some c) (some (Value.str "")) = s.length ∧
    row_count s none v = s.length ∧
    (truthyValue v = true →
      row_count s (some c) v = (s.filter fun r => decide (r c = v)).length) ∧
    (row_count w10Rows (some "c") (some (Value.int 0)) = 2 ∧
      (w10Rows.filter fun r => decide (r "c" = some (Value.int 0))).length = 1) := by
  refine ⟨rfl, rfl, rfl, ?_, by decide, by decide⟩
  intro ht
  simp [row_count, ht]

/-- Witness for C10 with a truthy value. -/
theorem claim_C10_witness :
    row_count w10Rows (some "c") (some (Value.int 7)) =
      (w10Rows.filter fun r => decide (r "c" = some (Value.int 7))).length :=
  (claim_C10 w10Rows "c" (some (Value.int 7))).2.2.2.1 (by decide)

end GarminDB
